import Mathlib

/-!
Shallow embedding of the Answer Synthesis & Continuous-Learning Pipeline
(`complete_synthesis_system.py`, `synthesis_api.py`, `continuous_retrain.py`,
`adapter_manager.py`).

Confidence values are Python floats in the source; they are modelled as
rationals (`Rat`), since every threshold comparison in the code is a plain
order comparison.  LLM invocations and their JSON parsing are modelled by an
`Option ReviewResult` oracle argument (`none` = the generate/parse step raised
or produced unparseable output).  SQLite state is modelled as explicit lists
of rows passed in and out.
-/

/-- One answer produced by a source for one query
(the dicts built by `YourTrainedLLM.answer`, `RAGSource.answer`, etc.). -/
structure AnswerCandidate where
  source : String
  answer : String
  confidence : Rat
deriving Repr, DecidableEq

/-- The dict returned by `LlamaReviewer.review_and_synthesize`. -/
structure ReviewResult where
  best_answer : String
  confidence : Rat
  reasoning : String
  sources_used : List String
deriving Repr, DecidableEq

/-- A character removed by Python's `str.strip()` with no argument. -/
def isPySpace (c : Char) : Bool :=
  c == ' ' || c == '\t' || c == '\n' || c == '\r' || c == '\x0b' || c == '\x0c'

/-- Python's `s.strip()`: leading and trailing whitespace removed. -/
def pyStrip (s : String) : String :=
  String.mk (((s.data.dropWhile isPySpace).reverse.dropWhile isPySpace).reverse)

/-- Validity filter: `a.get("answer", "").strip()` is non-empty: the filter applied in
`review_and_synthesize` line 200. -/
def isValidAnswer (a : AnswerCandidate) : Bool :=
  pyStrip a.answer != ""

/-- One step of Python's builtin `max(..., key=lambda x: x['confidence'])`:
the running best is replaced only when the next element is strictly
greater, so the first maximal element wins. -/
def pyMaxStep (b a : AnswerCandidate) : AnswerCandidate :=
  if a.confidence > b.confidence then a else b

/-- Python's `max(valid_answers, key=lambda x: x['confidence'])` with a default for
the (never reached in the source) empty case. -/
def pyMaxByConfidence (l : List AnswerCandidate) (d : AnswerCandidate) : AnswerCandidate :=
  match l with
  | [] => d
  | x :: xs => xs.foldl pyMaxStep x

/-- The fallback dict built at lines 262-269 of
`review_and_synthesize`: the highest-confidence valid answer, verbatim. -/
def fallbackResult (best : AnswerCandidate) : ReviewResult :=
  { best_answer := best.answer
    confidence := best.confidence
    reasoning := "Selected highest confidence answer from " ++ best.source
    sources_used := [best.source] }

/-- Embeds `LlamaReviewer.review_and_synthesize(query, all_answers)`.
`reviewOut` is the outcome of the LLM generate + JSON-parse step
(lines 242-258): `some r` if a JSON object was parsed, `none` if parsing
failed or an exception was raised.  The step is consulted whenever the
valid-answer list is non-empty, regardless of its length. -/
def review_and_synthesize (_query : String) (all_answers : List AnswerCandidate)
    (reviewOut : Option ReviewResult) : ReviewResult :=
  let valid_answers := all_answers.filter isValidAnswer
  match valid_answers with
  | [] =>
      { best_answer := "I don't have enough information to answer that."
        confidence := 0
        reasoning := "No valid answers received"
        sources_used := [] }
  | x :: xs =>
      match reviewOut with
      | some result => result
      | none => fallbackResult (xs.foldl pyMaxStep x)

/-- A row of the `conversations` table created by `LearningDatabase._init_db`
(id and timestamp are assigned by SQLite and irrelevant to every property
here; the list position plays the role of the monotonic id). -/
structure ConversationRow where
  query : String
  best_answer : String
  confidence : Rat
  sources : List String
  reasoning : String
deriving Repr, DecidableEq

/-- Failure token `StoreWriteFailure`: an sqlite error raised while inserting into the
learning database. -/
inductive StoreWriteFailure where
  | mk
deriving Repr, DecidableEq

/-- Embeds `LearningDatabase.store_for_training`.  The confidence gate
(`if confidence < 0.7: return`) fires before any database access, so a
broken store (`storeOk = false`) can only fail on gated-in answers.
The insert appends one row. -/
def store_for_training (storeOk : Bool) (db : List ConversationRow)
    (query best_answer : String) (confidence : Rat)
    (sources : List String) (reasoning : String) :
    Except StoreWriteFailure (List ConversationRow) :=
  if confidence < mkRat 7 10 then
    Except.ok db
  else if storeOk then
    Except.ok (db ++ [{ query := query, best_answer := best_answer,
                        confidence := confidence, sources := sources,
                        reasoning := reasoning }])
  else
    Except.error StoreWriteFailure.mk

/-- The dict returned by `CompleteSynthesisSystem.process_query`
(the `all_answers` debugging echo is omitted; no property refers to it). -/
structure QueryResponse where
  synthesized_answer : String
  confidence : Rat
  reasoning : String
  sources : List String
deriving Repr, DecidableEq

/-- Embeds `CompleteSynthesisSystem.process_query`.  The collected answers and the
reviewer outcome are inputs (collection itself involves network and GPU
calls).  `store_for_training` is invoked with no surrounding
try/except, so a `StoreWriteFailure` propagates out of `process_query`
before the response dict is built. -/
def process_query (storeOk : Bool) (db : List ConversationRow) (query : String)
    (all_answers : List AnswerCandidate) (reviewOut : Option ReviewResult) :
    Except StoreWriteFailure (QueryResponse × List ConversationRow) :=
  let result := review_and_synthesize query all_answers reviewOut
  match store_for_training storeOk db query result.best_answer
      result.confidence result.sources_used result.reasoning with
  | Except.error e => Except.error e
  | Except.ok db' =>
      Except.ok ({ synthesized_answer := result.best_answer
                   confidence := result.confidence
                   reasoning := result.reasoning
                   sources := result.sources_used }, db')

/-- The `/synthesize` route of `synthesis_api.py`: 503 when the system did
not initialize, otherwise `process_query` wrapped in try/except that
converts any exception into an HTTP 500.  The error payload is the status
code. -/
def api_synthesize (systemOk storeOk : Bool) (db : List ConversationRow)
    (query : String) (all_answers : List AnswerCandidate)
    (reviewOut : Option ReviewResult) : Except Nat QueryResponse :=
  if !systemOk then
    Except.error 503
  else
    match process_query storeOk db query all_answers reviewOut with
    | Except.ok (resp, _) => Except.ok resp
    | Except.error _ => Except.error 500

/-- A row of the `retraining_data` table read by `ContinuousRetrainer`
(extra columns not touched by the scheduler are omitted). -/
structure RetrainingRow where
  query : String
  answer : String
  confidence : Rat
  used_for_training : Bool
deriving Repr, DecidableEq

/-- The WHERE clause `used_for_training=0 AND confidence >= min_confidence`
shared by the high-confidence count, the dataset SELECT and the
consuming UPDATE. -/
def qualifies (min_confidence : Rat) (r : RetrainingRow) : Bool :=
  !r.used_for_training && decide (min_confidence ≤ r.confidence)

/-- The dict returned by `ContinuousRetrainer.get_retraining_stats`
(`average_confidence` is omitted: it is display-only and drives no
control flow). -/
structure RetrainStats where
  total_samples : Nat
  new_samples : Nat
  high_confidence_samples : Nat
  ready_for_retrain : Bool
deriving Repr, DecidableEq

/-- Embeds `ContinuousRetrainer.get_retraining_stats`: `new_samples` counts ALL
unconsumed rows (`WHERE used_for_training=0`, no confidence filter), and
`ready_for_retrain` compares that unfiltered count with `min_samples`;
the confidence-filtered count is reported but not used in the decision. -/
def get_retraining_stats (min_confidence : Rat) (min_samples : Nat)
    (db : List RetrainingRow) : RetrainStats :=
  { total_samples := db.length
    new_samples := (db.filter (fun r => !r.used_for_training)).length
    high_confidence_samples := (db.filter (qualifies min_confidence)).length
    ready_for_retrain := decide (min_samples ≤ (db.filter (fun r => !r.used_for_training)).length) }

/-- The UPDATE at lines 166-170 of `prepare_retraining_dataset`:
`SET used_for_training=1 WHERE used_for_training=0 AND confidence >= ?`.
Row order and all other columns are untouched. -/
def mark_consumed (min_confidence : Rat) (db : List RetrainingRow) : List RetrainingRow :=
  db.map (fun r =>
    if qualifies min_confidence r then { r with used_for_training := true } else r)

/-- Insert a row into a confidence-descending list, after all rows of
greater or equal confidence (stable). -/
def insertByConfDesc (r : RetrainingRow) : List RetrainingRow → List RetrainingRow
  | [] => [r]
  | x :: xs =>
      if x.confidence < r.confidence then r :: x :: xs else x :: insertByConfDesc r xs

/-- Stable sort by confidence descending, modelling the
`ORDER BY confidence DESC` of the dataset SELECT. -/
def sortByConfDesc : List RetrainingRow → List RetrainingRow
  | [] => []
  | x :: xs => insertByConfDesc x (sortByConfDesc xs)

/-- Embeds `ContinuousRetrainer.prepare_retraining_dataset`: returns the written
dataset artifact (as its list of `{human, bot}` pairs) together with the
new table state.  When stats say not ready, nothing is selected and
nothing is marked.  The SELECT orders by confidence descending (SQLite
fixes no order among ties; a stable sort on the table order models it). -/
def prepare_retraining_dataset (min_confidence : Rat) (min_samples : Nat)
    (db : List RetrainingRow) :
    Option (List (String × String)) × List RetrainingRow :=
  let stats := get_retraining_stats min_confidence min_samples db
  if !stats.ready_for_retrain then
    (none, db)
  else
    let samples := sortByConfDesc (db.filter (qualifies min_confidence))
    (some (samples.map (fun r => (r.query, r.answer))), mark_consumed min_confidence db)

/-- Embeds `ContinuousRetrainer.trigger_mistral_retraining`: launches the external
training subprocess on the dataset artifact; its success is an
environment outcome, passed in as `trainOk`.  It touches no table. -/
def trigger_mistral_retraining (trainOk : Bool) (_dataset : List (String × String)) : Bool :=
  trainOk

/-- Embeds `ContinuousRetrainer.check_and_retrain`: reads stats, and when ready
prepares the dataset (which marks the batch consumed) and only then
invokes training.  Returns the success flag and the table state. -/
def check_and_retrain (min_confidence : Rat) (min_samples : Nat)
    (db : List RetrainingRow) (trainOk : Bool) : Bool × List RetrainingRow :=
  let stats := get_retraining_stats min_confidence min_samples db
  if stats.ready_for_retrain then
    match prepare_retraining_dataset min_confidence min_samples db with
    | (some dataset, db') => (trigger_mistral_retraining trainOk dataset, db')
    | (none, db') => (false, db')
  else
    (false, db)

/-- One `mistral_lora_{dirVersion}` directory under the adapter base
directory.  `hasAdapterSubdir` is `(adapter_dir / "adapter").exists()`;
`hasConfig` is `(adapter_dir / "adapter_config.json").exists()`;
`configVersion` is the `adapter_version` field of that config file
(written by `train_mistral_lora.py` as the same timestamp that names the
directory). -/
structure AdapterDirEntry where
  dirVersion : String
  hasAdapterSubdir : Bool
  hasConfig : Bool
  configVersion : String
deriving Repr, DecidableEq

/-- The filesystem state seen by `AdapterManager`.  `link` is the resolved
target of the production symlink, identified by the `dirVersion` of the
directory whose `adapter` subdirectory it names (`none` = the production
path holds no symlink).  `linkIsPlainFile` models the path existing as a
real file or directory rather than a symlink. -/
structure AdapterFS where
  dirs : List AdapterDirEntry
  link : Option String
  linkIsPlainFile : Bool
deriving Repr, DecidableEq

/-- Existence check `(self.adapter_base_dir / f"mistral_lora_{version}" / "adapter").exists()`. -/
def adapterPathExists (fs : AdapterFS) (version : String) : Bool :=
  fs.dirs.any (fun d => d.dirVersion == version && d.hasAdapterSubdir)

/-- Embeds `AdapterManager.list_adapters`, reduced to the fields properties use:
for each directory with an `adapter_config.json`, the advertised version
(from the config) paired with the directory it lives in.  The mtime sort
only permutes the list and no property below depends on the order. -/
def list_adapters (fs : AdapterFS) : List (String × String) :=
  (fs.dirs.filter (fun d => d.hasConfig)).map (fun d => (d.configVersion, d.dirVersion))

/-- Embeds `AdapterManager.activate_adapter(version)`: validates the target
`adapter` directory exists; unlinks an existing symlink, refuses when the
production path is a non-symlink; then creates the new symlink.  Returns
the success flag and the new state. -/
def activate_adapter (fs : AdapterFS) (version : String) : Bool × AdapterFS :=
  if !adapterPathExists fs version then
    (false, fs)
  else if fs.link.isSome then
    (true, { fs with link := some version })
  else if fs.linkIsPlainFile then
    (false, fs)
  else
    (true, { fs with link := some version })

/-- The sequence of pointer states observable while `activate_adapter`
runs, one entry per filesystem step: the state on entry, the state after
`unlink()` (when an old symlink is removed), and the state after
`symlink_to()`.  Failure paths never touch the pointer. -/
def activate_observations (fs : AdapterFS) (version : String) : List (Option String) :=
  if !adapterPathExists fs version then
    [fs.link]
  else if fs.link.isSome then
    [fs.link, none, some version]
  else if fs.linkIsPlainFile then
    [fs.link]
  else
    [fs.link, some version]

/-- Embeds `AdapterManager.get_active_adapter`, reduced to the version it reports:
resolves the symlink, takes the parent directory, and returns the
`adapter_version` advertised by the first listed adapter whose directory
matches. -/
def get_active_adapter (fs : AdapterFS) : Option String :=
  match fs.link with
  | none => none
  | some v =>
      ((fs.dirs.filter (fun d => d.hasConfig)).find? (fun d => d.dirVersion == v)).map
        (fun d => d.configVersion)

/-! ### Properties of the fallback maximum -/

theorem confidence_le_pyMaxStep (b a : AnswerCandidate) :
    b.confidence ≤ (pyMaxStep b a).confidence ∧ a.confidence ≤ (pyMaxStep b a).confidence := by
  unfold pyMaxStep
  split
  · exact ⟨le_of_lt (by assumption), le_refl _⟩
  · exact ⟨le_refl _, le_of_not_lt (by assumption)⟩

theorem le_foldl_pyMaxStep (xs : List AnswerCandidate) (x : AnswerCandidate) :
    x.confidence ≤ (xs.foldl pyMaxStep x).confidence := by
  induction xs generalizing x with
  | nil => exact le_refl _
  | cons a t ih =>
      simp only [List.foldl_cons]
      exact le_trans (confidence_le_pyMaxStep x a).1 (ih (pyMaxStep x a))

theorem mem_le_foldl_pyMaxStep (xs : List AnswerCandidate) (x : AnswerCandidate) :
    ∀ a ∈ x :: xs, a.confidence ≤ (xs.foldl pyMaxStep x).confidence := by
  induction xs generalizing x with
  | nil =>
      intro a ha
      rw [List.mem_singleton] at ha
      rw [ha]
      exact le_refl _
  | cons b t ih =>
      intro a ha
      simp only [List.foldl_cons]
      rcases List.mem_cons.mp ha with h | h
      · rw [h]
        exact le_trans (confidence_le_pyMaxStep x b).1 (le_foldl_pyMaxStep t (pyMaxStep x b))
      · rcases List.mem_cons.mp h with h2 | h2
        · rw [h2]
          exact le_trans (confidence_le_pyMaxStep x b).2 (le_foldl_pyMaxStep t (pyMaxStep x b))
        · exact ih (pyMaxStep x b) a (List.mem_cons_of_mem _ h2)

theorem foldl_pyMaxStep_first (xs : List AnswerCandidate) (x : AnswerCandidate) :
    ∃ pre post, x :: xs = pre ++ (xs.foldl pyMaxStep x) :: post ∧
      ∀ c ∈ pre, c.confidence < (xs.foldl pyMaxStep x).confidence := by
  induction xs generalizing x with
  | nil => exact ⟨[], [], rfl, by simp⟩
  | cons a t ih =>
      simp only [List.foldl_cons]
      by_cases h : a.confidence > x.confidence
      · have hstep : pyMaxStep x a = a := by unfold pyMaxStep; rw [if_pos h]
        rw [hstep]
        obtain ⟨pre, post, hdec, hlt⟩ := ih a
        refine ⟨x :: pre, post, ?_, ?_⟩
        · rw [List.cons_append, ← hdec]
        · intro c hc
          rcases List.mem_cons.mp hc with h2 | h2
          · rw [h2]
            exact lt_of_lt_of_le h (le_foldl_pyMaxStep t a)
          · exact hlt c h2
      · have hstep : pyMaxStep x a = x := by unfold pyMaxStep; rw [if_neg h]
        rw [hstep]
        obtain ⟨pre, post, hdec, hlt⟩ := ih x
        cases pre with
        | nil =>
            simp only [List.nil_append] at hdec
            injection hdec with h1 h2
            refine ⟨[], a :: t, ?_, by simp⟩
            rw [List.nil_append, ← h1]
        | cons y pre' =>
            rw [List.cons_append] at hdec
            injection hdec with h1 h2
            refine ⟨x :: a :: pre', post, ?_, ?_⟩
            · simp only [List.cons_append]
              conv_rhs => rw [← h2]
            · intro c hc
              have hx : x.confidence < (t.foldl pyMaxStep x).confidence := by
                apply hlt
                rw [← h1] at *
                exact List.mem_cons_self x pre'
              rcases List.mem_cons.mp hc with h3 | h3
              · rw [h3]; exact hx
              · rcases List.mem_cons.mp h3 with h4 | h4
                · rw [h4]
                  exact lt_of_le_of_lt (le_of_not_lt h) hx
                · apply hlt
                  rw [← h1]
                  exact List.mem_cons_of_mem _ h4

/-- C2 counterexample input: two valid candidates, review parse fails. -/
def twoCandidates : List AnswerCandidate :=
  [⟨"A", "alpha", mkRat 3 5⟩, ⟨"C", "gamma", mkRat 9 10⟩]

/-- C2: the claim fixes the fallback reasoning text as
"fallback: highest individual confidence"; the source builds
"Selected highest confidence answer from {source}" instead
(line 267).  At two valid candidates with confidences 0.6 and 0.9 and a
failed review, the reasoning produced differs from the claimed constant. -/
theorem C2_counterexample :
    (review_and_synthesize "q" twoCandidates none).reasoning =
      "Selected highest confidence answer from C" ∧
    (review_and_synthesize "q" twoCandidates none).reasoning ≠
      "fallback: highest individual confidence" := by
  constructor
  · decide
  · decide

theorem review_eq_of_filter_cons (q : String) (cs : List AnswerCandidate)
    (x : AnswerCandidate) (xs : List AnswerCandidate) (ro : Option ReviewResult)
    (hv : cs.filter isValidAnswer = x :: xs) :
    review_and_synthesize q cs ro =
      match ro with
      | some result => result
      | none => fallbackResult (xs.foldl pyMaxStep x) := by
  unfold review_and_synthesize
  rw [hv]

/-- C2 (amended): when the review step fails on a candidate set with at
least one valid (non-blank) answer, the result is exactly the fallback
dict of the highest-confidence valid candidate — text verbatim,
confidence unchanged, `sources_used` just that source, and reasoning
"Selected highest confidence answer from " plus the source name — where
that candidate is maximal among the valid ones and every
earlier-collected valid candidate has strictly lower confidence (ties
resolve to the first collected). -/
theorem C2_review_failure_fallback (q : String) (cs : List AnswerCandidate)
    (h : cs.filter isValidAnswer ≠ []) :
    ∃ best pre post,
      review_and_synthesize q cs none = fallbackResult best ∧
      cs.filter isValidAnswer = pre ++ best :: post ∧
      (∀ c ∈ pre, c.confidence < best.confidence) ∧
      (∀ c ∈ cs.filter isValidAnswer, c.confidence ≤ best.confidence) := by
  cases hv : cs.filter isValidAnswer with
  | nil => exact absurd hv h
  | cons x xs =>
      obtain ⟨pre, post, hdec, hlt⟩ := foldl_pyMaxStep_first xs x
      refine ⟨xs.foldl pyMaxStep x, pre, post, ?_, hdec, hlt, ?_⟩
      · exact review_eq_of_filter_cons q cs x xs none hv
      · intro c hc
        exact mem_le_foldl_pyMaxStep xs x c hc

theorem C2_review_failure_fallback_witness :
    ∃ best pre post,
      review_and_synthesize "q" twoCandidates none = fallbackResult best ∧
      twoCandidates.filter isValidAnswer = pre ++ best :: post ∧
      (∀ c ∈ pre, c.confidence < best.confidence) ∧
      (∀ c ∈ twoCandidates.filter isValidAnswer, c.confidence ≤ best.confidence) :=
  C2_review_failure_fallback "q" twoCandidates (by decide)

/-- C5 counterexample input: the single valid candidate. -/
def singleCandidate : AnswerCandidate := ⟨"A", "alpha", mkRat 3 4⟩

/-- C5: the claim says a singleton candidate set is returned verbatim with
no reviewer invocation; in the source the reviewer runs for every
non-empty valid set, and when its output parses, that output — not the
candidate — is returned.  Here the parsed review output replaces the
sole candidate's text. -/
theorem C5_counterexample :
    (review_and_synthesize "q" [singleCandidate]
        (some ⟨"beta", mkRat 9 10, "merged by reviewer", ["A"]⟩)).best_answer
      ≠ singleCandidate.answer := by
  decide

/-- C5 (amended): for a candidate set with exactly one (valid) candidate
the reviewer IS still invoked: a parsed review output is returned as-is,
and only when the review step fails does the single candidate become the
final answer verbatim with its own confidence. -/
theorem C5_singleton_still_reviews (q : String) (c : AnswerCandidate)
    (h : isValidAnswer c = true) :
    (∀ r, review_and_synthesize q [c] (some r) = r) ∧
    review_and_synthesize q [c] none = fallbackResult c := by
  have hf : [c].filter isValidAnswer = [c] := by
    simp [List.filter, h]
  constructor
  · intro r
    exact review_eq_of_filter_cons q [c] c [] (some r) hf
  · exact review_eq_of_filter_cons q [c] c [] none hf

theorem C5_singleton_still_reviews_witness :
    (∀ r, review_and_synthesize "q" [singleCandidate] (some r) = r) ∧
    review_and_synthesize "q" [singleCandidate] none = fallbackResult singleCandidate :=
  C5_singleton_still_reviews "q" singleCandidate (by decide)

/-- C8: an empty candidate set yields the fixed "insufficient information"
answer, confidence exactly 0 and empty provenance, whatever the reviewer
oracle would have said. -/
theorem C8_empty_candidates (q : String) (reviewOut : Option ReviewResult) :
    review_and_synthesize q [] reviewOut =
      { best_answer := "I don't have enough information to answer that."
        confidence := 0
        reasoning := "No valid answers received"
        sources_used := [] } :=
  rfl

/-- C6: the learning-store append is confidence-gated at 0.7 — on a
working store the row is persisted iff `confidence ≥ 7/10`, everything
else unchanged — and appending confidences 0.5, 0.8, 0.95 to an empty
store persists exactly 2 rows. -/
theorem C6_confidence_gate :
    (∀ (db : List ConversationRow) (q a : String) (c : Rat)
        (src : List String) (rsn : String),
      store_for_training true db q a c src rsn =
        Except.ok (if mkRat 7 10 ≤ c
          then db ++ [{ query := q, best_answer := a, confidence := c,
                        sources := src, reasoning := rsn }]
          else db)) ∧
    ((store_for_training true [] "q1" "a1" (mkRat 1 2) [] "").bind (fun d1 =>
      (store_for_training true d1 "q2" "a2" (mkRat 4 5) [] "").bind (fun d2 =>
        store_for_training true d2 "q3" "a3" (mkRat 19 20) [] ""))).map List.length
      = Except.ok 2 := by
  constructor
  · intro db q a c src rsn
    unfold store_for_training
    rcases lt_or_le c (mkRat 7 10) with hc | hc
    · rw [if_pos hc, if_neg (not_le_of_lt hc)]
    · rw [if_neg (not_lt_of_le hc), if_pos rfl, if_pos hc]
  · rfl

/-- C3 (amended): when the Learning Store write fails on an answer that
clears the storage gate, the failure propagates out of `process_query`
(there is no try/except around the store call), and the API route turns
it into an HTTP 500 — the caller receives an error instead of the
synthesized answer. -/
theorem C3_store_failure_blocks_response (db : List ConversationRow) (q : String)
    (cs : List AnswerCandidate) (ro : Option ReviewResult)
    (h : mkRat 7 10 ≤ (review_and_synthesize q cs ro).confidence) :
    process_query false db q cs ro = Except.error StoreWriteFailure.mk ∧
    api_synthesize true false db q cs ro = Except.error 500 := by
  have hs : store_for_training false db q
      (review_and_synthesize q cs ro).best_answer
      (review_and_synthesize q cs ro).confidence
      (review_and_synthesize q cs ro).sources_used
      (review_and_synthesize q cs ro).reasoning = Except.error StoreWriteFailure.mk := by
    unfold store_for_training
    rw [if_neg (not_lt_of_le h)]
    rfl
  have hp : process_query false db q cs ro = Except.error StoreWriteFailure.mk := by
    simp only [process_query, hs]
  refine ⟨hp, ?_⟩
  unfold api_synthesize
  rw [hp]
  rfl

/-- C3: a store-write failure on a confidence-0.75 fallback answer makes
`process_query` raise and the API return HTTP 500: the claim that a
`StoreWriteFailure` "never prevents the caller from receiving the
SynthesizedAnswer" fails on the code. -/
theorem C3_counterexample :
    process_query false [] "q2" [⟨"B", "bravo", mkRat 4 5⟩] none =
      Except.error StoreWriteFailure.mk ∧
    api_synthesize true false [] "q2" [⟨"B", "bravo", mkRat 4 5⟩] none =
      Except.error 500 :=
  ⟨rfl, rfl⟩

theorem C3_store_failure_blocks_response_witness :
    process_query false [] "q" [singleCandidate] none = Except.error StoreWriteFailure.mk ∧
    api_synthesize true false [] "q" [singleCandidate] none = Except.error 500 :=
  C3_store_failure_blocks_response [] "q" [singleCandidate] none (by decide)

/-! ### Retraining scheduler -/

theorem mark_consumed_length (mc : Rat) (db : List RetrainingRow) :
    (mark_consumed mc db).length = db.length := by
  unfold mark_consumed
  exact List.length_map _ _

theorem mark_consumed_getElem? (mc : Rat) (db : List RetrainingRow) (i : Nat)
    (r : RetrainingRow) (hi : db[i]? = some r) (hr : r.used_for_training = true) :
    (mark_consumed mc db)[i]? = some r := by
  unfold mark_consumed
  rw [List.getElem?_map, hi]
  simp [qualifies, hr]

theorem check_and_retrain_state (mc : Rat) (ms : Nat) (db : List RetrainingRow) (t : Bool) :
    (check_and_retrain mc ms db t).2 =
      if (get_retraining_stats mc ms db).ready_for_retrain
        then mark_consumed mc db else db := by
  unfold check_and_retrain prepare_retraining_dataset
  by_cases h : (get_retraining_stats mc ms db).ready_for_retrain = true
  · simp [h]
  · simp [h]

/-- C7: consumed flags never revert and rows are never deleted.  The
per-row UPDATE maps every already-consumed row to itself; a full
`check_and_retrain` cycle preserves length and every consumed row; and
the table state after a cycle does not depend on whether the training
job succeeded, because the batch is marked during dataset preparation,
before training is invoked. -/
theorem C7_consumed_never_reverts :
    (∀ (mc : Rat) (db : List RetrainingRow) (i : Nat) (r : RetrainingRow),
        db[i]? = some r → r.used_for_training = true →
        (mark_consumed mc db)[i]? = some r) ∧
    (∀ (mc : Rat) (ms : Nat) (db : List RetrainingRow) (t : Bool),
        ((check_and_retrain mc ms db t).2).length = db.length ∧
        ∀ (i : Nat) (r : RetrainingRow),
          db[i]? = some r → r.used_for_training = true →
          ((check_and_retrain mc ms db t).2)[i]? = some r) ∧
    (∀ (mc : Rat) (ms : Nat) (db : List RetrainingRow) (t₁ t₂ : Bool),
        (check_and_retrain mc ms db t₁).2 = (check_and_retrain mc ms db t₂).2) := by
  refine ⟨mark_consumed_getElem?, ?_, ?_⟩
  · intro mc ms db t
    rw [check_and_retrain_state]
    constructor
    · split
      · exact mark_consumed_length mc db
      · rfl
    · intro i r hi hr
      split
      · exact mark_consumed_getElem? mc db i r hi hr
      · exact hi
  · intro mc ms db t₁ t₂
    rw [check_and_retrain_state, check_and_retrain_state]

theorem C7_consumed_never_reverts_witness :
    (mark_consumed (mkRat 4 5) [⟨"q", "a", mkRat 9 10, true⟩])[0]? =
      some ⟨"q", "a", mkRat 9 10, true⟩ ∧
    ((check_and_retrain (mkRat 4 5) 1
        [⟨"q", "a", mkRat 9 10, true⟩, ⟨"p", "b", mkRat 9 10, false⟩] false).2)[0]? =
      some ⟨"q", "a", mkRat 9 10, true⟩ :=
  ⟨C7_consumed_never_reverts.1 (mkRat 4 5) [⟨"q", "a", mkRat 9 10, true⟩] 0
      ⟨"q", "a", mkRat 9 10, true⟩ rfl rfl,
   (C7_consumed_never_reverts.2.1 (mkRat 4 5) 1
      [⟨"q", "a", mkRat 9 10, true⟩, ⟨"p", "b", mkRat 9 10, false⟩] false).2 0
      ⟨"q", "a", mkRat 9 10, true⟩ rfl rfl⟩

/-- C10: the consuming UPDATE is idempotent: applying it twice with the
same threshold leaves the table exactly as applying it once. -/
theorem C10_mark_consumed_idempotent (mc : Rat) (db : List RetrainingRow) :
    mark_consumed mc (mark_consumed mc db) = mark_consumed mc db := by
  unfold mark_consumed
  rw [List.map_map]
  apply List.map_congr_left
  intro r _
  simp only [Function.comp_apply]
  by_cases hq : qualifies mc r = true
  · rw [if_pos hq, if_neg]
    simp [qualifies]
  · rw [if_neg hq, if_neg hq]

/-- C1: the readiness decision ignores the confidence filter.  A table of
100 unconsumed rows all at confidence 0.5 (below the 0.8 threshold) has
zero qualifying samples, yet `get_retraining_stats` reports
`ready_for_retrain = true` and `prepare_retraining_dataset` proceeds —
writing an empty dataset and marking nothing — instead of returning to
idle as the spec (and the module's own docstring) requires. -/
theorem C1_readiness_ignores_confidence :
    (get_retraining_stats (mkRat 4 5) 100
        (List.replicate 100 ⟨"q", "a", mkRat 1 2, false⟩)).high_confidence_samples = 0 ∧
    (get_retraining_stats (mkRat 4 5) 100
        (List.replicate 100 ⟨"q", "a", mkRat 1 2, false⟩)).ready_for_retrain = true ∧
    prepare_retraining_dataset (mkRat 4 5) 100
        (List.replicate 100 ⟨"q", "a", mkRat 1 2, false⟩) =
      (some [], List.replicate 100 ⟨"q", "a", mkRat 1 2, false⟩) := by
  refine ⟨by decide, by decide, by decide⟩

/-! ### Adapter version manager -/

/-- Concrete filesystem with an old adapter active and a new one trained. -/
def fsWithOldActive : AdapterFS :=
  { dirs := [⟨"old", true, true, "old"⟩, ⟨"new", true, true, "new"⟩]
    link := some "old"
    linkIsPlainFile := false }

theorem activate_success_state (fs : AdapterFS) (v : String)
    (hsucc : (activate_adapter fs v).1 = true) :
    adapterPathExists fs v = true ∧
    (activate_adapter fs v).2 = { fs with link := some v } := by
  unfold activate_adapter at hsucc ⊢
  by_cases h1 : adapterPathExists fs v = true
  · by_cases h2 : fs.link.isSome = true
    · simp [h1, h2]
    · by_cases h3 : fs.linkIsPlainFile = true
      · simp [h1, h2, h3] at hsucc
      · simp [h1, h2, h3]
  · simp [h1] at hsucc

theorem find_config_reports_v (v : String) (l : List AdapterDirEntry)
    (hex : l.any (fun d => d.dirVersion == v && d.hasAdapterSubdir) = true)
    (hcons : ∀ d ∈ l, d.dirVersion = v → d.hasConfig = true ∧ d.configVersion = v) :
    ((l.filter (fun d => d.hasConfig)).find? (fun d => d.dirVersion == v)).map
      (fun d => d.configVersion) = some v := by
  induction l with
  | nil => simp at hex
  | cons d t ih =>
      by_cases hdv : d.dirVersion = v
      · obtain ⟨hc, hcv⟩ := hcons d (List.mem_cons_self d t) hdv
        have hb : (d.dirVersion == v) = true := by simp [hdv]
        rw [List.filter_cons_of_pos hc,
          @List.find?_cons_of_pos AdapterDirEntry (fun x => x.dirVersion == v) d
            (List.filter AdapterDirEntry.hasConfig t) hb]
        simp [hcv]
      · have hex' : t.any (fun d => d.dirVersion == v && d.hasAdapterSubdir) = true := by
          rcases (List.any_eq_true.mp hex) with ⟨d', hd', hpd'⟩
          rcases List.mem_cons.mp hd' with h | h
          · subst h
            simp only [Bool.and_eq_true, beq_iff_eq] at hpd'
            exact absurd hpd'.1 hdv
          · exact List.any_eq_true.mpr ⟨d', h, hpd'⟩
        have hcons' : ∀ d' ∈ t, d'.dirVersion = v →
            d'.hasConfig = true ∧ d'.configVersion = v :=
          fun d' hd' => hcons d' (List.mem_cons_of_mem _ hd')
        by_cases hc : d.hasConfig = true
        · have hb : ¬(d.dirVersion == v) = true := by simp [hdv]
          rw [List.filter_cons_of_pos hc,
            @List.find?_cons_of_neg AdapterDirEntry (fun x => x.dirVersion == v) d
              (List.filter AdapterDirEntry.hasConfig t) hb]
          exact ih hex' hcons'
        · rw [List.filter_cons_of_neg hc]
          exact ih hex' hcons'

/-- C9: when `activate(v)` succeeds and every directory named for `v` is
well-listed (it carries a config advertising `adapter_version = v`, as
`train_mistral_lora.py` writes it), `current()` immediately afterwards
reports exactly `v`. -/
theorem C9_activate_then_current (fs : AdapterFS) (v : String)
    (hcons : ∀ d ∈ fs.dirs, d.dirVersion = v → d.hasConfig = true ∧ d.configVersion = v)
    (hsucc : (activate_adapter fs v).1 = true) :
    get_active_adapter (activate_adapter fs v).2 = some v := by
  obtain ⟨hex, hstate⟩ := activate_success_state fs v hsucc
  rw [hstate]
  unfold get_active_adapter
  exact find_config_reports_v v fs.dirs hex hcons

theorem C9_activate_then_current_witness :
    get_active_adapter (activate_adapter fsWithOldActive "new").2 = some "new" :=
  C9_activate_then_current fsWithOldActive "new" (by decide) (by decide)

/-- C4: the pointer swap is not atomic.  With an old version active and a
valid new version, the observable pointer sequence of `activate` is
`[old, none, new]`: between `unlink()` and `symlink_to()` the production
path names no version at all, contradicting the claim that every
observable instant names either the old or the new version. -/
theorem C4_counterexample :
    activate_observations fsWithOldActive "new" = [some "old", none, some "new"] ∧
    ¬(∀ p ∈ activate_observations fsWithOldActive "new",
        p = some "old" ∨ p = some "new") := by
  refine ⟨by decide, by decide⟩

/-- C4 (amended): during `activate` every observable pointer state names
at most one version — the previous target, the new version, or nothing;
when `activate` succeeds the final observation is the new version; and
whenever an existing symlink is replaced there is an observable instant
in which the pointer names nothing. -/
theorem C4_activation_window (fs : AdapterFS) (v : String) :
    (∀ p ∈ activate_observations fs v, p = fs.link ∨ p = none ∨ p = some v) ∧
    ((activate_adapter fs v).1 = true →
      (activate_observations fs v).getLast? = some (some v)) ∧
    (fs.link.isSome = true → adapterPathExists fs v = true →
      none ∈ activate_observations fs v) := by
  unfold activate_observations activate_adapter
  by_cases h1 : adapterPathExists fs v = true
  · by_cases h2 : fs.link.isSome = true
    · simp [h1, h2]
    · by_cases h3 : fs.linkIsPlainFile = true
      · simp [h1, h2, h3]
      · simp [h1, h2, h3]
  · simp [h1]

theorem C4_activation_window_witness :
    none ∈ activate_observations fsWithOldActive "new" :=
  (C4_activation_window fsWithOldActive "new").2.2 (by decide) (by decide)
